import Mathlib

/-!
Shallow embedding of the SQL safety and access-control layer of the
repository (backend/safety/validator.py, backend/safety/policies.py,
backend/safety/access_control.py, backend/auth/rbac.py, backend/auth/models.py),
together with theorems settling the specification claims about it.

Python strings are modelled as Lean `String`/`List Char`; the inputs under
study are ASCII, where `Char.toUpper`/`Char.toLower` agree with Python
`str.upper`/`str.lower`.  The third-party `sqlparse` library (an external
dependency, not part of the repository) is modelled at the token level to the
extent `SQLValidator.validate` consumes it; each modelling decision is
documented at the definition it concerns.
-/

namespace Rhenium

/-! ## Python string primitives -/

/-- Python whitespace characters, as used by `str.strip` with no argument
(space, tab, newline, carriage return, vertical tab, form feed). -/
def isPySpace (c : Char) : Bool :=
  c = ' ' || c = '\t' || c = '\n' || c = '\r' || c = Char.ofNat 11 || c = Char.ofNat 12

/-- `str.upper`, per character (ASCII inputs). -/
def pyUpperL (s : List Char) : List Char := s.map Char.toUpper

/-- `str.lower`, per character (ASCII inputs). -/
def pyLowerL (s : List Char) : List Char := s.map Char.toLower

/-- `str.strip()` : drop Python whitespace from both ends. -/
def pyStripL (s : List Char) : List Char :=
  ((s.dropWhile isPySpace).reverse.dropWhile isPySpace).reverse

/-- `str.rstrip(';')` : drop trailing semicolons. -/
def pyRstripSemiL (s : List Char) : List Char :=
  (s.reverse.dropWhile (· = ';')).reverse

/-- String-level `str.upper`. -/
def pyUpper (s : String) : String := ⟨pyUpperL s.data⟩

/-- String-level `str.lower`. -/
def pyLower (s : String) : String := ⟨pyLowerL s.data⟩

/-- String-level `str.strip()`. -/
def pyStrip (s : String) : String := ⟨pyStripL s.data⟩

/-- Python regex `\w` for the ASCII inputs under study: `[A-Za-z0-9_]`. -/
def isWordChar (c : Char) : Bool := c.isAlpha || c.isDigit || c = '_'

/-- Does `kw` occur in `s` starting at `s` itself, with a word boundary after
it?  Returns `true` iff `kw` is a prefix of `s` and the following character
(if any) is not a word character.  Helper for the `\bKW\b` regex model. -/
def wordPrefix (kw s : List Char) : Bool :=
  match kw, s with
  | [], [] => true
  | [], c :: _ => !isWordChar c
  | _ :: _, [] => false
  | k :: ks, c :: cs => k = c && wordPrefix ks cs

/-- `re.search(r"\b" + kw + r"\b", s) is not None` for a keyword `kw` made of
word characters: some position of `s` starts an occurrence of `kw` whose
neighbours on both sides are absent or non-word characters.  `prev` records
whether the character before the current position is a word character
(`false` at the start of the string). -/
def occursWordAux (kw : List Char) (prev : Bool) (s : List Char) : Bool :=
  match s with
  | [] => false
  | c :: cs => (!prev && wordPrefix kw (c :: cs)) || occursWordAux kw (isWordChar c) cs

/-- Word-boundary keyword search, `re.search(r"\bKW\b", s)`. -/
def occursWord (kw : List Char) (s : List Char) : Bool :=
  occursWordAux kw false s

/-! ## backend/auth/models.py and backend/auth/rbac.py -/

/-- `RoleEnum` (models.py): the four predefined roles; `.value` is the
role-name string. -/
inductive RoleEnum where
  | ADMIN
  | DATA_SCIENTIST
  | ANALYST
  | VIEWER
deriving DecidableEq, Repr

/-- `RoleEnum.<r>.value`. -/
def RoleEnum.value : RoleEnum → String
  | .ADMIN => "ADMIN"
  | .DATA_SCIENTIST => "DATA_SCIENTIST"
  | .ANALYST => "ANALYST"
  | .VIEWER => "VIEWER"

/-- The fields of the ORM `User` consulted by the validation and RBAC code:
the `is_superuser` flag and the names of the user's roles.  `has_role`
(models.py) tests membership of a name in `roles`. -/
structure PyUser where
  is_superuser : Bool
  roleNames : List String
deriving DecidableEq, Repr

/-- `User.has_role(role_name)` (models.py): any of the user's roles has the
given name. -/
def hasRole (u : PyUser) (name : String) : Bool := u.roleNames.contains name

/-- `RBACService.can_execute_dangerous_query` (rbac.py): superuser, ADMIN
role, or DATA_SCIENTIST role. -/
def can_execute_dangerous_query (u : PyUser) : Bool :=
  u.is_superuser || hasRole u RoleEnum.ADMIN.value ||
    hasRole u RoleEnum.DATA_SCIENTIST.value

/-- `RBACService.get_accessible_tables` (rbac.py): the list of table names a
user may access, with `["*"]` meaning all tables. -/
def get_accessible_tables (u : PyUser) : List String :=
  if hasRole u RoleEnum.ADMIN.value || hasRole u RoleEnum.DATA_SCIENTIST.value then
    ["*"]
  else if hasRole u RoleEnum.ANALYST.value then
    ["sales", "customers", "products", "orders"]
  else if hasRole u RoleEnum.VIEWER.value then
    ["sales"]
  else
    []

/-- `RBACService.get_accessible_columns` (rbac.py): columns a user may access
in a table, `["*"]` meaning all. -/
def rbac_get_accessible_columns (u : PyUser) (table_name : String) : List String :=
  if hasRole u RoleEnum.ADMIN.value || hasRole u RoleEnum.DATA_SCIENTIST.value then
    ["*"]
  else
    let table_name := pyLower table_name
    if hasRole u RoleEnum.ANALYST.value then
      if table_name = "customers" then
        ["id", "name", "email", "phone", "address", "created_at"]
      else ["*"]
    else if hasRole u RoleEnum.VIEWER.value then
      if table_name = "customers" then ["id", "name", "email"]
      else if table_name = "sales" then ["id", "amount", "date", "product_id"]
      else ["*"]
    else ["*"]

/-! ## backend/safety/access_control.py -/

/-- `SENSITIVE_COLUMNS` (access_control.py). -/
def SENSITIVE_COLUMNS : List (String × List String) :=
  [("users", ["hashed_password", "email", "is_superuser"]),
   ("salaries", ["amount", "bonus"]),
   ("customers", ["credit_limit", "phone"])]

/-- `COLUMN_ACCESS_POLICIES` (access_control.py): per-role, per-table column
whitelists; `["*"]` means all columns of that table. -/
def COLUMN_ACCESS_POLICIES : RoleEnum → Option (List (String × List String))
  | .VIEWER => some [("customers", ["customername", "city", "country"]), ("sales", ["*"])]
  | .ANALYST => some [("customers", ["*"]), ("sales", ["*"])]
  | _ => none

/-- `AccessControlService.get_allowed_columns` (access_control.py). -/
def get_allowed_columns (role : RoleEnum) (table : String) : List String :=
  if role = .ADMIN then ["*"]
  else
    match COLUMN_ACCESS_POLICIES role with
    | some role_policy =>
        match role_policy.lookup table with
        | some cols => cols
        | none => ["*"]
    | none => ["*"]

/-- `AccessControlService.is_column_access_allowed` (access_control.py). -/
def is_column_access_allowed (role : RoleEnum) (table column : String) : Bool :=
  if role = .ADMIN then true
  else
    match SENSITIVE_COLUMNS.lookup table with
    | some sens =>
        if sens.contains column then false
        else
          let allowed := get_allowed_columns role table
          if allowed.contains "*" then true
          else (allowed.map pyLower).contains (pyLower column)
    | none =>
        let allowed := get_allowed_columns role table
        if allowed.contains "*" then true
        else (allowed.map pyLower).contains (pyLower column)

/-! ## backend/safety/policies.py -/

/-- `SafetyMode` (policies.py). -/
inductive SafetyMode where
  | STRICT
  | MODERATE
  | PERMISSIVE
deriving DecidableEq, Repr

/-- `SQLPolicy` (policies.py).  The Python sets are modelled as lists;
membership is what the code consumes. -/
structure SQLPolicy where
  mode : SafetyMode
  allowed_commands : List String
  max_rows : Nat
  allow_joins : Bool
  allow_subqueries : Bool
  forbidden_functions : List String
  required_where_clause : Bool
deriving DecidableEq, Repr

/-- `STRICT_POLICY` (policies.py). -/
def STRICT_POLICY : SQLPolicy :=
  { mode := .STRICT
    allowed_commands := ["SELECT"]
    max_rows := 100
    allow_joins := false
    allow_subqueries := false
    forbidden_functions := ["SLEEP", "BENCHMARK", "pg_sleep", "random"]
    required_where_clause := true }

/-- `MODERATE_POLICY` (policies.py). -/
def MODERATE_POLICY : SQLPolicy :=
  { mode := .MODERATE
    allowed_commands := ["SELECT", "WITH"]
    max_rows := 1000
    allow_joins := true
    allow_subqueries := true
    forbidden_functions := ["SLEEP", "BENCHMARK", "pg_sleep"]
    required_where_clause := false }

/-- `PERMISSIVE_POLICY` (policies.py). -/
def PERMISSIVE_POLICY : SQLPolicy :=
  { mode := .PERMISSIVE
    allowed_commands := ["SELECT", "INSERT", "UPDATE", "DELETE", "WITH", "CREATE", "DROP"]
    max_rows := 10000
    allow_joins := true
    allow_subqueries := true
    forbidden_functions := []
    required_where_clause := false }

/-- `get_policy` (policies.py): strict / permissive by lower-cased name,
everything else silently mapped to moderate. -/
def get_policy (mode : String) : SQLPolicy :=
  if pyLower mode = "strict" then STRICT_POLICY
  else if pyLower mode = "permissive" then PERMISSIVE_POLICY
  else MODERATE_POLICY

/-! ## Model of the `sqlparse` token stream

`SQLValidator.validate` consumes `sqlparse` (a third-party library, not part
of this repository) only through `sqlparse.parse(query)`, `Statement.get_type()`
and the token walk in `SQLValidator._extract_tables`.  The model below
reproduces the statement-level token stream `sqlparse` produces for the SQL
subset exercised here:

* the lexer keeps whitespace runs as tokens in `Statement.tokens` (sqlparse
  preserves whitespace; that is why its own helpers take `skip_ws` flags);
* words are classified by token type: DML (`SELECT`, `INSERT`, `UPDATE`,
  `DELETE`, `REPLACE`, `MERGE`), DDL (`CREATE`, `DROP`, `ALTER`,
  `TRUNCATE`), plain keywords (`FROM`, `WHERE`, `JOIN`, ...), numbers, and
  names;
* the grouper wraps a name (with an optional whitespace-separated alias
  name) into an `Identifier` group, a name directly followed by a
  parenthesised argument list into a `Function` group, and everything from a
  `WHERE` keyword to the end of the statement into a `Where` group;
  single-quoted literals are single string-literal tokens; `*` is a
  `Wildcard` token.

Comma-separated identifier lists (`IdentifierList`) are represented but the
grouper never builds them: no statement the claims exercise contains one. -/

/-- Raw lexical token (pre-grouping). -/
inductive RawTok where
  | rws (text : String)
  | rword (text : String)
  | rquoted (text : String)
  | rpunct (c : Char)
deriving DecidableEq, Repr

/-- ASCII single quote, written by code point to keep it out of string
literals. -/
def squote : Char := Char.ofNat 39

/-- Fuel-driven lexer: whitespace runs, word-character runs, single-quoted
literals, and single punctuation characters, exactly one of which is
consumed per step. -/
def lexF : Nat → List Char → List RawTok
  | 0, _ => []
  | _, [] => []
  | fuel + 1, c :: rest =>
    if isPySpace c then
      .rws ⟨c :: rest.takeWhile isPySpace⟩ :: lexF fuel (rest.dropWhile isPySpace)
    else if isWordChar c then
      .rword ⟨c :: rest.takeWhile isWordChar⟩ :: lexF fuel (rest.dropWhile isWordChar)
    else if c = squote then
      let content := rest.takeWhile (· ≠ squote)
      let rest2 := rest.dropWhile (· ≠ squote)
      match rest2 with
      | q :: tail => .rquoted ⟨c :: content ++ [q]⟩ :: lexF fuel tail
      | [] => [.rquoted ⟨c :: content⟩]
    else
      .rpunct c :: lexF fuel rest

/-- Lex a statement string. -/
def lexStmt (s : List Char) : List RawTok := lexF (s.length + 1) s

/-- Words with sqlparse token type `Keyword.DML`. -/
def DML_WORDS : List String := ["SELECT", "INSERT", "UPDATE", "DELETE", "REPLACE", "MERGE"]

/-- Words with sqlparse token type `Keyword.DDL`. -/
def DDL_WORDS : List String := ["CREATE", "DROP", "ALTER", "TRUNCATE"]

/-- Words with sqlparse token type `Keyword` (the subset relevant to the
statements under study; `WITH` has the distinct type `Keyword.CTE` but is
equally not DML/DDL, and is listed here because only not-DML/DDL matters to
the consuming code). -/
def PLAIN_KEYWORDS : List String :=
  ["FROM", "WHERE", "JOIN", "TABLE", "AND", "OR", "AS", "ON", "SET", "GROUP",
   "BY", "ORDER", "LIMIT", "INNER", "LEFT", "RIGHT", "OUTER", "FULL", "CROSS",
   "WITH", "UNION", "HAVING", "NOT", "IN", "IS", "NULL", "LIKE", "BETWEEN",
   "CASE", "WHEN", "THEN", "ELSE", "END", "DISTINCT", "INTO", "VALUES"]

/-- Word classification by sqlparse token type. -/
inductive WordClass where
  | dml
  | ddl
  | keyword
  | number
  | name
deriving DecidableEq, Repr

/-- Classify a lexed word. -/
def classifyWord (w : String) : WordClass :=
  let u : String := pyUpper w
  if DML_WORDS.contains u then .dml
  else if DDL_WORDS.contains u then .ddl
  else if PLAIN_KEYWORDS.contains u then .keyword
  else if w.data ≠ [] && w.data.all Char.isDigit then .number
  else .name

/-- Statement-level token after sqlparse grouping.  `text` fields carry
`str(token)`; identifiers also carry `get_real_name()`. -/
inductive ModelTok where
  | tokDML (text : String)
  | tokDDL (text : String)
  | tokKeyword (text : String)
  | tokWS (text : String)
  | tokWildcard
  | tokPunct (c : Char)
  | tokIdentifier (text : String) (realName : String)
  | tokIdentifierList (entries : List (String × String))
  | tokFunction (text : String)
  | tokWhere (text : String)
  | tokLiteral (text : String)
deriving DecidableEq, Repr

/-- `str(token)` of a raw token. -/
def rawText : RawTok → String
  | .rws t => t
  | .rword t => t
  | .rquoted t => t
  | .rpunct c => ⟨[c]⟩

/-- Collect raw tokens up to and including the parenthesis matching an
already-open one (`depth` open parentheses seen).  Returns the consumed
tokens and the remainder. -/
def collectParen : Nat → Nat → List RawTok → List RawTok × List RawTok
  | 0, _, toks => ([], toks)
  | _, _, [] => ([], [])
  | fuel + 1, depth, t :: rest =>
    match t with
    | .rpunct '(' =>
        let (inner, rem) := collectParen fuel (depth + 1) rest
        (t :: inner, rem)
    | .rpunct ')' =>
        if depth ≤ 1 then ([t], rest)
        else
          let (inner, rem) := collectParen fuel (depth - 1) rest
          (t :: inner, rem)
    | _ =>
        let (inner, rem) := collectParen fuel depth rest
        (t :: inner, rem)

/-- Grouping pass over the raw tokens of one statement. -/
def groupF : Nat → List RawTok → List ModelTok
  | 0, _ => []
  | _, [] => []
  | fuel + 1, t :: rest =>
    match t with
    | .rws s => .tokWS s :: groupF fuel rest
    | .rquoted s => .tokLiteral s :: groupF fuel rest
    | .rpunct '*' => .tokWildcard :: groupF fuel rest
    | .rpunct c => .tokPunct c :: groupF fuel rest
    | .rword w =>
      match classifyWord w with
      | .dml => .tokDML w :: groupF fuel rest
      | .ddl => .tokDDL w :: groupF fuel rest
      | .keyword =>
          if pyUpper w = "WHERE" then
            [.tokWhere (String.join ((t :: rest).map rawText))]
          else
            .tokKeyword w :: groupF fuel rest
      | .number => .tokLiteral w :: groupF fuel rest
      | .name =>
        match rest with
        | .rpunct '(' :: rest2 =>
            let (inner, rem) := collectParen (rest2.length + 1) 1 rest2
            .tokFunction (w ++ "(" ++ String.join (inner.map rawText)) :: groupF fuel rem
        | .rws s :: .rword w2 :: rest2 =>
            if classifyWord w2 = .name then
              .tokIdentifier (w ++ s ++ w2) w :: groupF fuel rest2
            else
              .tokIdentifier w w :: groupF fuel rest
        | _ => .tokIdentifier w w :: groupF fuel rest

/-- sqlparse statement-level token stream for one statement string. -/
def stmtTokens (s : List Char) : List ModelTok :=
  groupF (s.length + 1) (lexStmt s)

/-- `sqlparse.parse(query)` as consumed by `validate`: `validate` only
parses after stripping the query and ruling out interior statement
separators, so the statement list is empty exactly for the empty string and
is otherwise headed by the single statement.  The model returns the token
stream of `parsed[0]`. -/
def sqlparseFirstStatement (q : String) : Option (List ModelTok) :=
  if q.data = [] then none else some (stmtTokens q.data)

/-- `Statement.get_type()`: the normalized (upper-cased) value of the first
non-whitespace, non-comment token if its type is DML or DDL, else
`"UNKNOWN"` (the repository's sqlparse build types `WITH` statements as
`UNKNOWN`, as recorded by the comment at validator.py line 104). -/
def getTypeModel (toks : List ModelTok) : String :=
  match toks with
  | [] => "UNKNOWN"
  | .tokWS _ :: rest => getTypeModel rest
  | .tokDML w :: _ => pyUpper w
  | .tokDDL w :: _ => pyUpper w
  | _ => "UNKNOWN"

/-! ## backend/safety/validator.py -/

/-- `SQLValidator.FORBIDDEN_KEYWORDS` (validator.py).  The Python value is a
`set`, whose iteration order is unspecified; it is modelled as a list in the
source's literal order.  Theorems that name the keyword in a rejection
message only use inputs matched by exactly one keyword, where the order is
immaterial. -/
def FORBIDDEN_KEYWORDS : List String :=
  ["DROP", "DELETE", "TRUNCATE", "ALTER", "UPDATE", "INSERT",
   "GRANT", "REVOKE", "COMMIT", "ROLLBACK", "REPLACE", "MERGE"]

/-- `SQLValidator.ALLOWED_TABLES` (validator.py); declared but not consulted
by `validate`. -/
def ALLOWED_TABLES : List String := ["sales", "customers", "products", "orders"]

/-- The rejection message of the forbidden-keyword gate. -/
def kwViolationMsg (kw : String) : String :=
  "Query contains forbidden keyword: " ++ kw

/-- The keyword loop of `validate` (validator.py lines 82-87): the first
forbidden keyword matching `query_upper` on word boundaries, if any. -/
def firstForbidden (query_upper : List Char) : Option String :=
  FORBIDDEN_KEYWORDS.find? (fun kw => occursWord kw.data query_upper)

/-- Python `needle in hay` on strings: contiguous-substring test. -/
def isSubstr (needle : List Char) : List Char → Bool
  | [] => needle.isEmpty
  | c :: rest => needle.isPrefixOf (c :: rest) || isSubstr needle rest

/-- Is a statement-level token sqlparse's `Keyword` `FROM`
(`token.ttype is Keyword and token.value.upper() == 'FROM'`)?  DML and DDL
words and grouped tokens have other token types. -/
def isFromKeyword : ModelTok → Bool
  | .tokKeyword w => pyUpper w = "FROM"
  | _ => false

/-- The token walk of `SQLValidator._extract_tables` (validator.py lines
186-205): a `from_seen` flag is set at a `FROM` keyword token, and the very
next token — whatever it is, including a whitespace token — is inspected for
`Identifier`/`IdentifierList` and then clears the flag; independently, any
`Identifier` whose text contains `JOIN` contributes its real name.  The
Python `set` of tables is modelled as a list in discovery order (the
consuming code only tests membership). -/
def extractTablesFold (toks : List ModelTok) (from_seen : Bool)
    (acc : List String) : List String :=
  match toks with
  | [] => acc
  | tok :: rest =>
    if from_seen then
      let acc :=
        match tok with
        | .tokIdentifierList entries => acc ++ entries.map Prod.snd
        | .tokIdentifier _ rn => acc ++ [rn]
        | _ => acc
      extractTablesFold rest false acc
    else if isFromKeyword tok then
      extractTablesFold rest true acc
    else
      match tok with
      | .tokIdentifier text rn =>
          if isSubstr "JOIN".data (pyUpperL text.data) && rn ≠ "" then
            extractTablesFold rest false (acc ++ [rn])
          else
            extractTablesFold rest false acc
      | _ => extractTablesFold rest false acc

/-- `SQLValidator._extract_tables` over a parsed statement. -/
def extract_tables (stmt : List ModelTok) : List String :=
  extractTablesFold stmt false []

/-- Python truthiness chain `user and RBACService.can_execute_dangerous_query(user)`:
`False` for a missing user, else the RBAC capability. -/
def userCanSkip : Option PyUser → Bool
  | some u => can_execute_dangerous_query u
  | none => false

/-- `SQLValidator.validate` (validator.py lines 57-123).

* `settingsSafetyMode` models the global `settings.SAFETY_MODE`
  (default `"strict"`, settings.py line 55); when the `strict_mode` argument
  is `None` the flag is derived as `settings.SAFETY_MODE == "strict"`.
* The keyword loop's skip condition
  (`not strict_mode and user and can_execute_dangerous_query(user)`) does
  not depend on the keyword, so the loop either rejects at its first match
  or — when the condition holds — skips every match; the model applies the
  condition once.
* The `try`/`except` around parsing cannot fire on the modelled inputs (the
  modelled sqlparse functions are total and raise nothing), so the
  `"SQL parsing error"` branch is not represented. -/
def validate (settingsSafetyMode : String) (query : String)
    (user : Option PyUser) (strict_mode : Option Bool) : Bool × Option String :=
  let strict_mode := strict_mode.getD (settingsSafetyMode = "strict")
  let query_upper := pyUpperL query.data
  let query := pyStrip query
  let skipDangerous := !strict_mode && userCanSkip user
  match if skipDangerous then none else firstForbidden query_upper with
  | some kw => (false, some (kwViolationMsg kw))
  | none =>
    let stripped_query := pyRstripSemiL query.data
    if stripped_query.contains ';' then
      (false, some "Multiple statements are not allowed")
    else
      match sqlparseFirstStatement query with
      | none => (false, some "Could not parse SQL query")
      | some stmt =>
        let stmt_type := getTypeModel stmt
        if stmt_type ≠ "SELECT" && stmt_type ≠ "UNKNOWN" &&
            !(⟨pyStripL query_upper⟩ : String).startsWith "WITH" then
          (false, some ("Only SELECT queries are allowed (got " ++ stmt_type ++ ")"))
        else
          let tables := extract_tables stmt
          match user with
          | some u =>
            let accessible_tables := get_accessible_tables u
            if !accessible_tables.contains "*" then
              match tables.find?
                  (fun t => !(accessible_tables.map pyLower).contains (pyLower t)) with
              | some t => (false, some ("User does not have access to table: " ++ t))
              | none => (true, none)
            else (true, none)
          | none => (true, none)

/-! ## Concrete inputs used by the claims -/

/-- A user holding only the VIEWER role. -/
def viewerUser : PyUser := ⟨false, ["VIEWER"]⟩

/-- A user holding only the DATA_SCIENTIST role (which grants
`can_execute_dangerous_query`). -/
def dsUser : PyUser := ⟨false, ["DATA_SCIENTIST"]⟩

/-- A user holding only the ADMIN role. -/
def adminUser : PyUser := ⟨false, ["ADMIN"]⟩

/-- A one-character string holding the ASCII single quote. -/
def sq : String := ⟨[squote]⟩

/-- The statement-stacking input of the repository's own test
`test_reject_multiple_statements` (backend/tests/test_safety.py line 45). -/
def stackedQuery : String := "SELECT * FROM sales; DROP TABLE sales;"

/-- A SELECT whose only occurrence of a forbidden keyword is the standalone
word `UPDATE` inside a quoted string literal:
`SELECT * FROM sales WHERE action = 'UPDATE'`. -/
def quotedUpdateQuery : String :=
  "SELECT * FROM sales WHERE action = " ++ sq ++ "UPDATE" ++ sq

/-- A single statement whose only `;` sits inside a quoted literal:
`SELECT * FROM sales WHERE note = 'a;b'`. -/
def quotedSemiQuery : String :=
  "SELECT * FROM sales WHERE note = " ++ sq ++ "a;b" ++ sq

/-- Another single statement with a `;` inside a quoted literal, used as a
witness input: `SELECT a FROM t WHERE x = 'p;q'`. -/
def quotedSemiQuery2 : String :=
  "SELECT a FROM t WHERE x = " ++ sq ++ "p;q" ++ sq

/-! ## Helper lemmas -/

theorem toUpper_of_isPySpace {c : Char} (h : isPySpace c = true) : c.toUpper = c := by
  simp only [isPySpace, Bool.or_eq_true, decide_eq_true_eq] at h
  rcases h with ((((h | h) | h) | h) | h) | h <;> subst h <;> decide

theorem occursWordAux_space {k : Char} {ks s : List Char} {prev : Bool}
    (hk : isPySpace k = false) (hs : ∀ c ∈ s, isPySpace c = true) :
    occursWordAux (k :: ks) prev s = false := by
  induction s generalizing prev with
  | nil => rfl
  | cons c cs ih =>
      have hc : isPySpace c = true := hs c (List.mem_cons_self c cs)
      have hne : k ≠ c := by
        intro h
        rw [h, hc] at hk
        exact Bool.noConfusion hk
      have hdec : (decide (k = c)) = false := decide_eq_false hne
      simp only [occursWordAux, wordPrefix, hdec, Bool.false_and,
        Bool.and_false, Bool.or_false, Bool.false_or]
      exact ih fun c hc => hs c (List.mem_cons_of_mem _ hc)

theorem firstForbidden_space {s : List Char} (hs : ∀ c ∈ s, isPySpace c = true) :
    firstForbidden s = none := by
  apply List.find?_eq_none.mpr
  intro kw hkw hocc
  have hshape : ∃ k ks, kw.data = k :: ks ∧ isPySpace k = false := by
    simp only [FORBIDDEN_KEYWORDS, List.mem_cons, List.not_mem_nil, or_false] at hkw
    rcases hkw with rfl | rfl | rfl | rfl | rfl | rfl | rfl | rfl | rfl | rfl | rfl | rfl <;>
      exact ⟨_, _, rfl, by decide⟩
  obtain ⟨k, ks, hd, hk⟩ := hshape
  rw [occursWord, hd, occursWordAux_space hk hs] at hocc
  exact Bool.false_ne_true hocc

theorem pyUpperL_space {s : List Char} (hs : ∀ c ∈ s, isPySpace c = true) :
    ∀ c ∈ pyUpperL s, isPySpace c = true := by
  intro c hc
  obtain ⟨d, hd, rfl⟩ := List.mem_map.mp hc
  rw [toUpper_of_isPySpace (hs d hd)]
  exact hs d hd

theorem dropWhile_space_nil {s : List Char} (hs : ∀ c ∈ s, isPySpace c = true) :
    s.dropWhile isPySpace = [] := by
  induction s with
  | nil => rfl
  | cons c cs ih =>
      simp only [List.dropWhile_cons, hs c (List.mem_cons_self c cs), if_true]
      exact ih fun c hc => hs c (List.mem_cons_of_mem _ hc)

theorem pyStripL_space {s : List Char} (hs : ∀ c ∈ s, isPySpace c = true) :
    pyStripL s = [] := by
  unfold pyStripL
  rw [dropWhile_space_nil hs]
  rfl

/-! ## Claims -/

/-- C1: the claim says the multiple-statement check runs before the
forbidden-keyword check, so `SELECT 1; DROP TABLE x;`-style inputs are
rejected as MultipleStatements regardless of mode and role.  The code runs
the keyword scan first: the repository's own test input
`SELECT * FROM sales; DROP TABLE sales;` is rejected with the
forbidden-keyword message for `DROP` (not the multiple-statement message its
test asserts), even though the interior statement separator is present; the
multiple-statement message only appears when the keyword gate is skipped
(non-strict mode and a privileged caller). -/
theorem c1_keyword_scan_precedes_multistatement_check :
    validate "strict" stackedQuery none none
      = (false, some (kwViolationMsg "DROP")) ∧
    (pyRstripSemiL (pyStripL stackedQuery.data)).contains ';' = true ∧
    validate "moderate" stackedQuery (some dsUser) none
      = (false, some "Multiple statements are not allowed") := by
  decide

/-- C2 counterexample: the claim says in every non-Permissive mode (Strict
and Moderate alike) a forbidden-keyword match is rejected for every caller.
In Moderate mode (`settings.SAFETY_MODE = "moderate"`, so
`strict_mode = False`), a caller with the `may_execute_dangerous_queries`
capability is not rejected: the query matching the forbidden keyword
`UPDATE` as a whole word validates successfully. -/
theorem c2_moderate_capability_bypasses_keyword_gate :
    occursWord "UPDATE".data (pyUpperL quotedUpdateQuery.data) = true ∧
    validate "moderate" quotedUpdateQuery (some dsUser) none = (true, none) := by
  decide

/-- C2 (amended): a whole-word forbidden-keyword match is rejected with the
keyword violation message unless the effective mode is non-strict (Moderate
or Permissive alike, `strict_mode = False`) and the caller has
`can_execute_dangerous_query`; with that combination the keyword gate is
skipped even in Moderate mode, while Strict mode rejects even privileged
callers and Moderate rejects unprivileged ones. -/
theorem c2_keyword_gate_skips_in_any_nonstrict_mode :
    (∀ (mode q : String) (u : Option PyUser) (kw : String),
        (mode = "strict" ∨ userCanSkip u = false) →
        firstForbidden (pyUpperL q.data) = some kw →
        validate mode q u none = (false, some (kwViolationMsg kw))) ∧
    validate "strict" quotedUpdateQuery (some dsUser) none
      = (false, some (kwViolationMsg "UPDATE")) ∧
    validate "moderate" quotedUpdateQuery (some dsUser) none = (true, none) ∧
    validate "moderate" quotedUpdateQuery (some viewerUser) none
      = (false, some (kwViolationMsg "UPDATE")) := by
  refine ⟨?_, by decide, by decide, by decide⟩
  intro mode q u kw hcase hff
  unfold validate
  rcases hcase with rfl | hc
  · simp [hff]
  · simp [hc, hff]

/-- C2 witness: the general rejection branch of the amended claim at a
concrete input (Strict mode, no user, `DROP TABLE sales;`). -/
theorem c2_keyword_gate_witness :
    validate "strict" "DROP TABLE sales;" none none
      = (false, some (kwViolationMsg "DROP")) :=
  c2_keyword_gate_skips_in_any_nonstrict_mode.1 "strict" "DROP TABLE sales;"
    none "DROP" (Or.inl rfl) (by decide)

/-- C3 counterexample: the claim says `SELECT *` over a table whose column
policy for the caller's role is a proper whitelist is rejected with
ColumnRestricted.  For role VIEWER on `customers` — whose whitelist is
exactly `{customername, city, country}` — the query is instead accepted
outright (`is_valid = true`): `validate` has no column-level gate at all. -/
theorem c3_viewer_wildcard_customers_accepted :
    get_allowed_columns RoleEnum.VIEWER "customers"
      = ["customername", "city", "country"] ∧
    validate "strict" "SELECT * FROM customers" (some viewerUser) none
      = (true, none) := by
  decide

/-- C3 (amended): `validate` performs no column-level wildcard check; the
column policies of access_control.py are never consulted by it.  `SELECT *
FROM customers` under VIEWER is accepted, not rejected as ColumnRestricted —
indeed not even rejected at table level, because the token walk of
`_extract_tables` clears its FROM flag on the whitespace token that follows
`FROM` and so extracts no tables.  `SELECT *` against the all-columns table
`sales` is likewise accepted. -/
theorem c3_no_column_restriction_gate :
    validate "strict" "SELECT * FROM customers" (some viewerUser) none
      = (true, none) ∧
    validate "strict" "SELECT * FROM sales" (some viewerUser) none
      = (true, none) ∧
    get_allowed_columns RoleEnum.VIEWER "customers"
      = ["customername", "city", "country"] ∧
    get_allowed_columns RoleEnum.VIEWER "sales" = ["*"] ∧
    extract_tables (stmtTokens "SELECT * FROM customers".data) = [] := by
  decide

/-- C4 counterexample: the claim says a single-statement input of UNKNOWN
command category is rejected unless the policy allows UNKNOWN (none do), so
unknown input never yields `is_valid = true`.  The input `FOO BAR` has
statement type UNKNOWN and `validate` accepts it. -/
theorem c4_unknown_type_accepted :
    getTypeModel (stmtTokens "FOO BAR".data) = "UNKNOWN" ∧
    validate "strict" "FOO BAR" none none = (true, none) := by
  decide

/-- C4 (amended): `validate` whitelists statement type UNKNOWN alongside
SELECT (the code comments that CTE `WITH` statements parse as UNKNOWN) and
never consults any policy's `allowed_commands`; an unknown single-statement
input with no forbidden keyword is accepted under every mode, even though no
built-in policy lists UNKNOWN as an allowed command. -/
theorem c4_unknown_whitelisted_no_policy_consulted :
    validate "strict" "FOO BAR" none none = (true, none) ∧
    validate "moderate" "FOO BAR" none none = (true, none) ∧
    validate "permissive" "FOO BAR" none none = (true, none) ∧
    "UNKNOWN" ∉ STRICT_POLICY.allowed_commands ∧
    "UNKNOWN" ∉ MODERATE_POLICY.allowed_commands ∧
    "UNKNOWN" ∉ PERMISSIVE_POLICY.allowed_commands := by
  decide

/-- C5 counterexample: the claim says that under Strict mode
(`required_where_clause = true`) the WHERE-less query
`SELECT SUM(SALES) FROM sales;` issued by role VIEWER is rejected with
PolicyViolation.  `validate` accepts it. -/
theorem c5_whereless_query_accepted_in_strict :
    validate "strict" "SELECT SUM(SALES) FROM sales;" (some viewerUser) none
      = (true, none) := by
  decide

/-- C5 (amended): `STRICT_POLICY` does declare `required_where_clause =
true`, but `validate` never consults any `SQLPolicy`, so no WHERE-clause
requirement is enforced: the WHERE-less strict-mode VIEWER query is accepted
(and likewise with no user at all). -/
theorem c5_required_where_clause_not_enforced :
    STRICT_POLICY.required_where_clause = true ∧
    validate "strict" "SELECT SUM(SALES) FROM sales;" (some viewerUser) none
      = (true, none) ∧
    validate "strict" "SELECT SUM(SALES) FROM sales;" none none
      = (true, none) := by
  decide

/-- C6 counterexample: the claim says empty or whitespace-only input is
rejected with category Empty.  The code has no Empty category or message:
such input falls through the keyword and separator gates, is stripped to the
empty string, fails `sqlparse.parse`, and is rejected with the parse-failure
message `Could not parse SQL query`. -/
theorem c6_empty_input_gets_parse_message :
    validate "strict" "" none none
      = (false, some "Could not parse SQL query") ∧
    validate "strict" "   " none none
      = (false, some "Could not parse SQL query") := by
  decide

/-- C6 (amended): every empty or whitespace-only input (space, tab,
newline, carriage return, vertical tab, form feed) is rejected
(`is_valid = false`) under every safety mode, every user and every
`strict_mode` override, but with the parse-failure message
`Could not parse SQL query` rather than a distinct Empty category. -/
theorem c6_blank_input_always_rejected :
    ∀ (mode : String) (u : Option PyUser) (sm : Option Bool) (s : String),
      (∀ c ∈ s.data, isPySpace c = true) →
      validate mode s u sm = (false, some "Could not parse SQL query") := by
  intro mode u sm s h
  have hff : firstForbidden (pyUpperL s.data) = none :=
    firstForbidden_space (pyUpperL_space h)
  have hstrip : pyStripL s.data = [] := pyStripL_space h
  unfold validate
  simp [hff, pyStrip, hstrip, sqlparseFirstStatement, pyRstripSemiL]

/-- C6 witness: the amended claim at a concrete whitespace-only input under
Permissive mode with a privileged user. -/
theorem c6_blank_input_witness :
    validate "permissive" "  " (some dsUser) (some false)
      = (false, some "Could not parse SQL query") :=
  c6_blank_input_always_rejected "permissive" (some dsUser) (some false) "  "
    (by decide)

/-- C7: for every user whose role set is admin-equivalent (holds ADMIN or
DATA_SCIENTIST, the roles that resolve to all tables) and for every table
and column, the access-control resolvers yield all tables
(`get_accessible_tables = ["*"]`) and all columns
(`rbac_get_accessible_columns = ["*"]`, `get_allowed_columns = ["*"]` for
both roles), regardless of the explicit entries in
`COLUMN_ACCESS_POLICIES`/`SENSITIVE_COLUMNS` (neither function consults them
on this path) and of any safety policy (none is an input); the ADMIN
per-column check also always allows. -/
theorem c7_admin_equivalent_full_access :
    ∀ (u : PyUser) (table col : String),
      (hasRole u RoleEnum.ADMIN.value || hasRole u RoleEnum.DATA_SCIENTIST.value)
          = true →
      get_accessible_tables u = ["*"] ∧
      rbac_get_accessible_columns u table = ["*"] ∧
      get_allowed_columns RoleEnum.ADMIN table = ["*"] ∧
      get_allowed_columns RoleEnum.DATA_SCIENTIST table = ["*"] ∧
      is_column_access_allowed RoleEnum.ADMIN table col = true := by
  intro u table col h
  refine ⟨?_, ?_, rfl, rfl, rfl⟩
  · unfold get_accessible_tables
    rw [h]
    rfl
  · unfold rbac_get_accessible_columns
    rw [h]
    rfl

/-- C7 witness: the full-access facts at a concrete ADMIN user, on the
sensitive `users.hashed_password` pair. -/
theorem c7_admin_full_access_witness :
    get_accessible_tables adminUser = ["*"] ∧
    rbac_get_accessible_columns adminUser "users" = ["*"] ∧
    get_allowed_columns RoleEnum.ADMIN "users" = ["*"] ∧
    get_allowed_columns RoleEnum.DATA_SCIENTIST "users" = ["*"] ∧
    is_column_access_allowed RoleEnum.ADMIN "users" "hashed_password" = true :=
  c7_admin_equivalent_full_access adminUser "users" "hashed_password" (by decide)

/-- C8 counterexample: the claim says the statement splitter ignores
separators inside quoted literals, so `SELECT * FROM sales WHERE note =
'a;b'` is not rejected as MultipleStatements.  The code's check is a plain
substring test on the `;`-rstripped query and rejects exactly that input
with the multiple-statement message. -/
theorem c8_quoted_semicolon_rejected_as_multistatement :
    validate "strict" quotedSemiQuery none none
      = (false, some "Multiple statements are not allowed") := by
  decide

/-- C8 (amended): the multiple-statement check is quote-unaware: for every
input that passes the keyword gate, any statement-separator character left
after stripping trailing separators — including one inside a quoted
literal — causes the multiple-statement rejection, for every mode, user and
`strict_mode` override. -/
theorem c8_separator_check_ignores_quoting :
    ∀ (mode q : String) (u : Option PyUser) (sm : Option Bool),
      firstForbidden (pyUpperL q.data) = none →
      (pyRstripSemiL (pyStripL q.data)).contains ';' = true →
      validate mode q u sm = (false, some "Multiple statements are not allowed") := by
  intro mode q u sm hff hsemi
  have hmem : ';' ∈ pyRstripSemiL (pyStripL q.data) := by simpa using hsemi
  unfold validate
  simp [hff, pyStrip, hmem]

/-- C8 witness: the amended claim at a concrete quoted-separator input. -/
theorem c8_separator_check_witness :
    validate "moderate" quotedSemiQuery2 (some viewerUser) (some false)
      = (false, some "Multiple statements are not allowed") :=
  c8_separator_check_ignores_quoting "moderate" quotedSemiQuery2
    (some viewerUser) (some false) (by decide) (by decide)

/-- C9: the forbidden-keyword scan uppercases the query and matches on word
boundaries: every spelling of `UPDATE` in any letter case, standing as a
whole word, matches; every string uppercasing to `UPDATED_AT` never matches
`UPDATE`; the query `SELECT updated_at FROM sales` matches no forbidden
keyword and validates successfully, while a standalone mixed-case `uPdAtE`
statement is rejected with the `UPDATE` keyword violation. -/
theorem c9_keyword_match_word_boundary_case_insensitive :
    (∀ w : String, pyUpperL w.data = "UPDATE".data →
        occursWord "UPDATE".data (pyUpperL w.data) = true) ∧
    (∀ w : String, pyUpperL w.data = "UPDATED_AT".data →
        occursWord "UPDATE".data (pyUpperL w.data) = false) ∧
    firstForbidden (pyUpperL "SELECT updated_at FROM sales".data) = none ∧
    validate "strict" "SELECT updated_at FROM sales" none none = (true, none) ∧
    validate "strict" "uPdAtE sales SET x = 1" none none
      = (false, some (kwViolationMsg "UPDATE")) := by
  refine ⟨?_, ?_, by decide, by decide, by decide⟩
  · intro w h
    rw [h]
    decide
  · intro w h
    rw [h]
    decide

/-- C9 witness: the two quantified parts at concrete spellings. -/
theorem c9_keyword_match_witness :
    occursWord "UPDATE".data (pyUpperL "uPdAtE".data) = true ∧
    occursWord "UPDATE".data (pyUpperL "Updated_At".data) = false :=
  ⟨c9_keyword_match_word_boundary_case_insensitive.1 "uPdAtE" (by decide),
   c9_keyword_match_word_boundary_case_insensitive.2.1 "Updated_At" (by decide)⟩

/-- C10: `get_policy` is a total function on strings (the Lean model is
total by construction, mirroring the straight-line Python which raises
nothing): it returns the Strict policy exactly when the argument lowercases
to `strict`, the Permissive policy exactly when it lowercases to
`permissive`, and the Moderate policy for every other string — unrecognized
mode names are silently mapped to Moderate. -/
theorem c10_get_policy_characterization :
    ∀ s : String,
      (get_policy s = STRICT_POLICY ↔ pyLower s = "strict") ∧
      (get_policy s = PERMISSIVE_POLICY ↔ pyLower s = "permissive") ∧
      (pyLower s ≠ "strict" → pyLower s ≠ "permissive" →
        get_policy s = MODERATE_POLICY) := by
  intro s
  by_cases h1 : pyLower s = "strict"
  · have h2 : pyLower s ≠ "permissive" := by
      rw [h1]
      decide
    simp [get_policy, h1, h2, (by decide : STRICT_POLICY ≠ PERMISSIVE_POLICY)]
  · by_cases h2 : pyLower s = "permissive"
    · simp [get_policy, h1, h2,
        (by decide : ¬PERMISSIVE_POLICY = STRICT_POLICY)]
    · simp [get_policy, h1, h2,
        (by decide : ¬MODERATE_POLICY = STRICT_POLICY),
        (by decide : ¬MODERATE_POLICY = PERMISSIVE_POLICY)]

/-- C10 witness: the characterization at concrete mode strings, including a
mixed-case recognized name and an unrecognized one. -/
theorem c10_get_policy_witness :
    get_policy "sTrIcT" = STRICT_POLICY ∧ get_policy "TyPo" = MODERATE_POLICY :=
  ⟨((c10_get_policy_characterization "sTrIcT").1).mpr (by decide),
   (c10_get_policy_characterization "TyPo").2.2 (by decide) (by decide)⟩

end Rhenium
